import Mathlib

/-!
Shallow embedding of the `android_looper` crate (files `src/lib.rs` and
`src/error.rs`): a thin safe wrapper over the native Android looper ABI.

Native calls are modelled as an explicit trace of `FfiCall` events emitted by
each operation, and the result of the native `ALooper_prepare` call is supplied
by an environment function, since it is decided outside this layer.
-/

/-- A native looper handle (`pub type LooperHandle = *mut ffi::ALooper`):
an opaque pointer value, with `0` modelling the null pointer. -/
abbrev LooperHandle := Nat

/-- Models `ptr::is_null()` on a handle. -/
def LooperHandle.isNull (h : LooperHandle) : Bool := h == 0

/-- The native entry points this layer can invoke (spec §6: prepare, acquire,
release, poll-all-pending). A list of `FfiCall` values is the trace of native
calls an operation performs, in order. Out-parameter pointers of
`alooper_pollAll` are modelled as handles with `0` for `ptr::null_mut()`. -/
inductive FfiCall where
  | alooper_prepare (opts : Int)
  | alooper_acquire (h : LooperHandle)
  | alooper_release (h : LooperHandle)
  | alooper_pollAll (timeoutMillis : Int) (outFd outEvents outData : Nat)
deriving DecidableEq, Repr

/-- Reference-count effect of one native call on the native looper object:
`ALooper_acquire` increments, `ALooper_release` decrements, others do nothing. -/
def FfiCall.refDelta : FfiCall → Int
  | .alooper_acquire _ => 1
  | .alooper_release _ => -1
  | _ => 0

/-- Net reference-count change produced by a trace of native calls. -/
def refCountDelta (t : List FfiCall) : Int :=
  (t.map FfiCall.refDelta).sum

/-- `src/error.rs`: `pub enum Error { PrepareLooperFailed }`. -/
inductive Error where
  | PrepareLooperFailed
deriving DecidableEq, Repr

/-- `src/error.rs`: `pub type Result<T> = result::Result<T, Error>`. -/
abbrev Result (T : Type) := Except Error T

/-- `struct LooperRef { handle: LooperHandle }` — copyable reference to a
looper; the projection `LooperRef.handle` doubles as the source's pure
accessor method `handle()`, which returns `self.handle`. -/
structure LooperRef where
  handle : LooperHandle
deriving DecidableEq, Repr

/-- `struct AcquiredLooper { handle: LooperHandle }` — RAII acquired looper. -/
structure AcquiredLooper where
  handle : LooperHandle
deriving DecidableEq, Repr

/-- `LooperRef::from_handle`: `LooperRef { handle: handle }`, with the (empty)
trace of native calls it performs. -/
def LooperRef.from_handle (h : LooperHandle) : LooperRef × List FfiCall :=
  (⟨h⟩, [])

/-- `LooperRef::prepare`: calls `ffi::ALooper_prepare(opts as c_int)`; if the
returned handle `is_null()`, returns `Err(Error::PrepareLooperFailed)`,
otherwise `Ok(LooperRef { handle: looper_handle })`. The environment
`nativePrepare` gives the handle the native call returns for given opts. -/
def LooperRef.prepare (nativePrepare : Int → LooperHandle) (opts : Int) :
    Result LooperRef × List FfiCall :=
  let looper_handle := nativePrepare opts
  if looper_handle.isNull then
    (Except.error Error.PrepareLooperFailed, [FfiCall.alooper_prepare opts])
  else
    (Except.ok ⟨looper_handle⟩, [FfiCall.alooper_prepare opts])

/-- `AcquiredLooper::from_ref`: `unsafe { ffi::ALooper_acquire(looper.handle()) }`
then `AcquiredLooper { handle: looper.handle() }`. -/
def AcquiredLooper.from_ref (looper : LooperRef) : AcquiredLooper × List FfiCall :=
  (⟨looper.handle⟩, [FfiCall.alooper_acquire looper.handle])

/-- `LooperRef::acquire`: `AcquiredLooper::from_ref(*self)`. -/
def LooperRef.acquire (l : LooperRef) : AcquiredLooper × List FfiCall :=
  AcquiredLooper.from_ref l

/-- `LooperRef::poll_all_blind`: calls
`ffi::ALooper_pollAll(0, ptr::null_mut(), ptr::null_mut(), ptr::null_mut())`
and discards the native result. -/
def LooperRef.poll_all_blind (_ : LooperRef) : Unit × List FfiCall :=
  ((), [FfiCall.alooper_pollAll 0 0 0 0])

/-- `impl Drop for AcquiredLooper`: the destructor body as written in the
source, `unsafe { ffi::ALooper_acquire(self.handle) }` — note it calls the
acquire entry point, not a release entry point. Returns the trace of native
calls destruction performs. -/
def AcquiredLooper.drop (a : AcquiredLooper) : List FfiCall :=
  [FfiCall.alooper_acquire a.handle]

/-- C1: evaluation of the code at a failing input. Claim: destruction invokes
the native release (decrement) exactly once and never the acquire (increment),
so a scoped acquire followed by a drop leaves the native reference count at its
pre-acquire value. The code's `Drop` body instead calls `ALooper_acquire`
again: for handle 1, the drop trace is a single acquire event, the combined
acquire-then-drop trace has net reference-count delta 2 (not 0), and no
release call appears in it. -/
theorem c1_drop_calls_acquire_leaving_nonzero_delta :
    AcquiredLooper.drop ⟨1⟩ = [FfiCall.alooper_acquire 1] ∧
    refCountDelta ((AcquiredLooper.from_ref ⟨1⟩).snd ++ AcquiredLooper.drop ⟨1⟩) = 2 ∧
    FfiCall.alooper_release 1 ∉ (AcquiredLooper.from_ref ⟨1⟩).snd ++ AcquiredLooper.drop ⟨1⟩ := by
  refine ⟨rfl, rfl, ?_⟩
  decide

/-- C2: `prepare` returns `Err(PrepareLooperFailed)` iff the native
`ALooper_prepare` call returns a null handle; otherwise it returns `Ok` of a
`LooperRef` wrapping exactly the handle the native call returned; and any
error it ever produces is `PrepareLooperFailed`. -/
theorem c2_prepare_err_iff_native_null (env : Int → LooperHandle) (opts : Int) :
    ((LooperRef.prepare env opts).fst = Except.error Error.PrepareLooperFailed ↔ env opts = 0) ∧
    (env opts ≠ 0 → (LooperRef.prepare env opts).fst = Except.ok ⟨env opts⟩) ∧
    (∀ e, (LooperRef.prepare env opts).fst = Except.error e → e = Error.PrepareLooperFailed) := by
  refine ⟨?_, ?_, ?_⟩
  · by_cases h : env opts = 0 <;>
      simp [LooperRef.prepare, LooperHandle.isNull, h]
  · intro h
    simp [LooperRef.prepare, LooperHandle.isNull, h]
  · intro e _
    cases e
    rfl

/-- C2 witness: for the environment returning handle 7, `prepare` succeeds
with exactly that handle. -/
theorem c2_prepare_err_iff_native_null_witness :
    (LooperRef.prepare (fun _ => 7) 0).fst = Except.ok ⟨7⟩ :=
  (c2_prepare_err_iff_native_null (fun _ => 7) 0).2.1 (by decide)

/-- C3: `AcquiredLooper::from_ref` invokes the native acquire call exactly once
on the reference's handle and stores that same handle in the result, and
`LooperRef::acquire` equals `AcquiredLooper::from_ref` applied to a copy of
the reference. -/
theorem c3_from_ref_acquires_once_and_stores (r : LooperRef) :
    AcquiredLooper.from_ref r = (⟨r.handle⟩, [FfiCall.alooper_acquire r.handle]) ∧
    (AcquiredLooper.from_ref r).snd.count (FfiCall.alooper_acquire r.handle) = 1 ∧
    LooperRef.acquire r = AcquiredLooper.from_ref r := by
  refine ⟨rfl, ?_, rfl⟩
  simp [AcquiredLooper.from_ref]

/-- C4: among the exposed operations only `prepare` can fail, and only with
`PrepareLooperFailed`; every other operation is a total function returning a
plain value (no error result): each is characterised by an explicit defining
equation with no error component. -/
theorem c4_only_prepare_can_fail (env : Int → LooperHandle) (opts : Int)
    (h : LooperHandle) (r : LooperRef) (a : AcquiredLooper) :
    ((LooperRef.prepare env opts).fst = Except.ok ⟨env opts⟩ ∨
      (LooperRef.prepare env opts).fst = Except.error Error.PrepareLooperFailed) ∧
    LooperRef.from_handle h = (⟨h⟩, []) ∧
    (⟨h⟩ : LooperRef).handle = h ∧
    LooperRef.acquire r = (⟨r.handle⟩, [FfiCall.alooper_acquire r.handle]) ∧
    r.poll_all_blind = ((), [FfiCall.alooper_pollAll 0 0 0 0]) ∧
    AcquiredLooper.drop a = [FfiCall.alooper_acquire a.handle] := by
  refine ⟨?_, rfl, rfl, rfl, rfl, rfl⟩
  by_cases hn : env opts = 0
  · right
    simp [LooperRef.prepare, LooperHandle.isNull, hn]
  · left
    simp [LooperRef.prepare, LooperHandle.isNull, hn]

/-- C5: `poll_all_blind` invokes the native poll-all-pending operation exactly
once, with zero timeout and null out-pointers, and returns unit, discarding
the native result and surfacing nothing. -/
theorem c5_poll_all_blind_zero_timeout_once (r : LooperRef) :
    r.poll_all_blind = ((), [FfiCall.alooper_pollAll 0 0 0 0]) ∧
    (r.poll_all_blind).snd.length = 1 :=
  ⟨rfl, rfl⟩

/-- C6: wrapping any handle (including null, i.e. 0) with `from_handle` and
reading it back through the pure accessor returns the original handle. -/
theorem c6_from_handle_handle_round_trip (h : LooperHandle) :
    ((LooperRef.from_handle h).fst).handle = h :=
  rfl

/-- C7: `Error` has exactly one inhabitant, `PrepareLooperFailed`, and every
`Result T` value is either `Ok` of some `T` or `Err` of that sole error. -/
theorem c7_error_single_inhabitant :
    (∀ e : Error, e = Error.PrepareLooperFailed) ∧
    (∀ (T : Type) (x : Result T),
      (∃ t, x = Except.ok t) ∨ x = Except.error Error.PrepareLooperFailed) := by
  constructor
  · intro e
    cases e
    rfl
  · intro T x
    cases x with
    | ok t => exact Or.inl ⟨t, rfl⟩
    | error e => cases e; exact Or.inr rfl

/-- C8: `from_handle` performs no validation and has no side effects: its
native-call trace is empty (reference-count delta 0) and it only stores the
handle, even for the null handle 0. -/
theorem c8_from_handle_no_native_calls (h : LooperHandle) :
    LooperRef.from_handle h = (⟨h⟩, ([] : List FfiCall)) ∧
    refCountDelta (LooperRef.from_handle h).snd = 0 :=
  ⟨rfl, rfl⟩

/-- C9: equality of `LooperRef` values is handle equality: two references are
equal iff their stored handles are equal. -/
theorem c9_looper_ref_eq_iff_handle_eq (a b : LooperRef) :
    a = b ↔ a.handle = b.handle := by
  cases a
  cases b
  simp

/-- C10: a successful `prepare` never returns a `LooperRef` wrapping the null
handle. -/
theorem c10_prepare_ok_handle_nonnull (env : Int → LooperHandle) (opts : Int)
    (r : LooperRef) (h : (LooperRef.prepare env opts).fst = Except.ok r) :
    r.handle ≠ 0 := by
  by_cases hn : env opts = 0
  · simp [LooperRef.prepare, LooperHandle.isNull, hn] at h
  · simp [LooperRef.prepare, LooperHandle.isNull, hn] at h
    subst h
    simpa using hn

/-- C10 witness: for the environment returning handle 7, `prepare` succeeds
and the wrapped handle is non-null. -/
theorem c10_prepare_ok_handle_nonnull_witness :
    (LooperRef.prepare (fun _ => 7) 0).fst = Except.ok ⟨7⟩ ∧
    ((⟨7⟩ : LooperRef)).handle ≠ 0 :=
  ⟨rfl, c10_prepare_ok_handle_nonnull (fun _ => 7) 0 ⟨7⟩ rfl⟩
